import Mathlib

/-!
Shallow embedding of the childguardbackend Express server (`src/server.js`,
the code-scheme variant, and the token-scheme variant found alongside it).
Each HTTP route becomes a pure function from the current time, the user
store (a list of user documents) and the request fields to an HTTP
response together with the updated store.  External collaborators
(bcrypt, JWT signing, Stream Chat, nodemailer, `Math.random`,
`crypto.randomBytes`) are passed in as explicit parameters, mirroring the
spec's black-box capability contracts.
-/

/-- A persisted user document (mongoose `User` schema).  Both variants'
reset fields are present: `resetCode`/`resetCodeExpires` for the 6-digit
code scheme and `resetPasswordToken`/`resetPasswordExpires` for the hex
token scheme.  Timestamps are milliseconds since the epoch, as in
`Date.now()`. -/
structure UserRec where
  id : String
  name : String
  email : String
  password : String
  phone : String
  status : String
  avatar : Option String
  validId : String
  selfie : String
  resetCode : Option String
  resetCodeExpires : Option Nat
  resetPasswordToken : Option String
  resetPasswordExpires : Option Nat
  deriving DecidableEq, Repr

/-- An HTTP JSON response: status code, the optional `success` flag and
the `message`/`error` text of the body. -/
structure HttpResp where
  status : Nat
  success : Option Bool
  message : String
  deriving DecidableEq, Repr

/-- `user.save()`: write the (possibly modified) document back to the
store, replacing the document with the same `_id`. -/
def saveUser (db : List UserRec) (u : UserRec) : List UserRec :=
  db.map (fun v => if v.id == u.id then u else v)

/-- JS `user.resetCodeExpires < Date.now()` where the field may be
`undefined`: comparing `undefined` with a number is `false`. -/
def dateLt (e : Option Nat) (now : Nat) : Bool :=
  match e with
  | none => false
  | some t => t < now

/-- JS `user.resetCodeExpires && user.resetCodeExpires > Date.now()`:
a Date object is truthy, `undefined` is falsy. -/
def dateGt (e : Option Nat) (now : Nat) : Bool :=
  match e with
  | none => false
  | some t => now < t

/-- Response body of the `/verify-reset` rejection branch. -/
def invalidCodeResp : HttpResp :=
  { status := 400, success := some false, message := "Invalid or expired code" }

/-- Response body of the `/verify-reset` success branch. -/
def resetOkResp : HttpResp :=
  { status := 200, success := some true, message := "Password reset successfully" }

/-- `POST /verify-reset` (code scheme).  Looks the user up by email,
rejects when the user is absent, the stored code differs from the
supplied one (JS `!==`, exact string comparison) or the stored expiry is
strictly before `now`; otherwise hashes the new password, clears the
code and expiry, and saves the document. -/
def verifyReset (hash : String → String) (now : Nat) (db : List UserRec)
    (email : String) (code : Option String) (password : String) :
    HttpResp × List UserRec :=
  match db.find? (fun u => u.email == email) with
  | none => (invalidCodeResp, db)
  | some user =>
    if user.resetCode != code || dateLt user.resetCodeExpires now then
      (invalidCodeResp, db)
    else if dateLt user.resetCodeExpires now then
      ({ status := 400, success := none, message := "Code expired" }, db)
    else
      let user' := { user with
        password := hash password
        resetCode := none
        resetCodeExpires := none }
      (resetOkResp, saveUser db user')

/-- Response body of the `/reset-password/:token` rejection branch. -/
def invalidTokenResp : HttpResp :=
  { status := 400, success := none, message := "Invalid or expired token" }

/-- `POST /reset-password/:token` (token scheme).  A single Mongo query
`findOne({resetPasswordToken: token, resetPasswordExpires: {$gt: now}})`
selects the user; a document with the field unset matches neither
clause. -/
def resetPassword (hash : String → String) (now : Nat) (db : List UserRec)
    (token : String) (password : String) : HttpResp × List UserRec :=
  match db.find? (fun u =>
      u.resetPasswordToken == some token && dateGt u.resetPasswordExpires now) with
  | none => (invalidTokenResp, db)
  | some user =>
    let user' := { user with
      password := hash password
      resetPasswordToken := none
      resetPasswordExpires := none }
    ({ status := 200, success := none,
       message := "Password has been reset successfully" }, saveUser db user')

/-- `Math.floor(100000 + Math.random() * 900000)`: the 6-digit code
generated from a draw `r` of the random source. -/
def genCode (r : ℚ) : Nat :=
  (⌊(100000 : ℚ) + r * 900000⌋).toNat

/-- Response body of the `/request-reset` rate-limit branch. -/
def rateLimitedResp : HttpResp :=
  { status := 429, success := some false,
    message := "Please wait before requesting a new code." }

/-- `POST /request-reset` (code scheme).  `r` is the `Math.random()`
draw and `emailOk` the outcome of `transporter.sendMail`; the new code
and its 10-minute expiry are persisted before the email is attempted. -/
def requestReset (now : Nat) (r : ℚ) (emailOk : Bool) (db : List UserRec)
    (email : String) : HttpResp × List UserRec :=
  match db.find? (fun u => u.email == email) with
  | none =>
    ({ status := 404, success := some false,
       message := "User not found with that email" }, db)
  | some user =>
    if dateGt user.resetCodeExpires now then
      (rateLimitedResp, db)
    else
      let user' := { user with
        resetCode := some (toString (genCode r))
        resetCodeExpires := some (now + 10 * 60 * 1000) }
      let db' := saveUser db user'
      if emailOk then
        ({ status := 200, success := some true,
           message := "Reset code sent to email" }, db')
      else
        ({ status := 500, success := none, message := "Failed to send email" }, db')

/-- `POST /forgot-password` (token scheme).  `token` is the
`crypto.randomBytes(20).toString("hex")` draw.  The token and a one-hour
expiry are written unconditionally for any existing user. -/
def forgotPassword (now : Nat) (token : String) (emailOk : Bool)
    (db : List UserRec) (email : String) : HttpResp × List UserRec :=
  match db.find? (fun u => u.email == email) with
  | none =>
    ({ status := 404, success := none,
       message := "User not found with that email" }, db)
  | some user =>
    let user' := { user with
      resetPasswordToken := some token
      resetPasswordExpires := some (now + 3600000) }
    let db' := saveUser db user'
    if emailOk then
      ({ status := 200, success := none,
         message := "Reset email sent successfully" }, db')
    else
      ({ status := 500, success := none, message := "Email failed to send" }, db')

/-- Outcome of `POST /login`: either an error response or the success
body carrying the JWT, the user fields and the Stream Chat token. -/
inductive LoginResult where
  | err (status : Nat) (message : String)
  | ok (token userId name email phone chatToken : String)
  deriving DecidableEq, Repr

/-- Whether a login outcome carries a session token. -/
def LoginResult.isOk : LoginResult → Bool
  | .ok _ _ _ _ _ _ => true
  | .err _ _ => false

/-- The HTTP status of a login outcome. -/
def LoginResult.statusCode : LoginResult → Nat
  | .ok _ _ _ _ _ _ => 200
  | .err s _ => s

/-- `POST /login`.  `verify` abstracts `bcrypt.compare`, `sign` the JWT
signing and `chatTok` the Stream Chat token factory.  The pending-status
gate runs only after the credential check succeeds. -/
def login (verify : String → String → Bool) (sign chatTok : String → String)
    (db : List UserRec) (email password : String) : LoginResult :=
  match db.find? (fun u => u.email == email) with
  | none => .err 400 "Invalid email or password"
  | some user =>
    if ¬ verify password user.password then
      .err 400 "Invalid email or password"
    else if user.status == "pending" then
      .err 403 "Your account is pending approval"
    else
      .ok (sign user.id) user.id user.name user.email user.phone (chatTok user.id)

/-- The fields of a `POST /signup` request body; a missing field is the
empty string (both `undefined` and `""` are falsy in the JS guard). -/
structure SignupReq where
  name : String
  email : String
  password : String
  phone : String
  validId : String
  selfie : String
  deriving DecidableEq, Repr

/-- The document built by the signup route: hashed credential, mongoose
defaults `status := "pending"`, no avatar, no reset state. -/
def mkUser (hash : String → String) (freshId : String) (r : SignupReq) : UserRec :=
  { id := freshId
    name := r.name
    email := r.email
    password := hash r.password
    phone := r.phone
    status := "pending"
    avatar := none
    validId := r.validId
    selfie := r.selfie
    resetCode := none
    resetCodeExpires := none
    resetPasswordToken := none
    resetPasswordExpires := none }

/-- Response body of the signup uniqueness-violation branches. -/
def conflictResp : HttpResp :=
  { status := 400, success := none, message := "User already exists" }

/-- `POST /signup`: field-presence guard, then the email-uniqueness and
phone-uniqueness lookups, then creation of a pending user with a hashed
credential. -/
def signup (hash : String → String) (freshId : String) (db : List UserRec)
    (r : SignupReq) : HttpResp × List UserRec :=
  if r.name == "" || r.email == "" || r.password == "" || r.phone == "" ||
      r.validId == "" || r.selfie == "" then
    ({ status := 400, success := none, message := "Missing email or password" }, db)
  else
    match db.find? (fun u => u.email == r.email) with
    | some _ => (conflictResp, db)
    | none =>
      match db.find? (fun u => u.phone == r.phone) with
      | some _ => (conflictResp, db)
      | none =>
        ({ status := 201, success := none, message := "Signup successful" },
         db ++ [mkUser hash freshId r])

/-- `POST /api/users/:id/avatar`: `findByIdAndUpdate` overwrites the
avatar of the matching document and is a silent no-op when no document
matches; the route answers 200 either way. -/
def updateAvatar (db : List UserRec) (id avatar : String) :
    HttpResp × List UserRec :=
  ({ status := 200, success := none, message := "Avatar updated" },
   db.map (fun u => if u.id == id then { u with avatar := some avatar } else u))

/-- The user document as serialized by `GET /api/users/:id` after
`.select("-password")`: every field but the credential. -/
structure ProfileView where
  id : String
  name : String
  email : String
  phone : String
  status : String
  avatar : Option String
  deriving DecidableEq, Repr

/-- Projection of a stored user to its profile view. -/
def profileOf (u : UserRec) : ProfileView :=
  { id := u.id, name := u.name, email := u.email, phone := u.phone,
    status := u.status, avatar := u.avatar }

/-- `GET /api/users/:id`: `findById` yields `null` for a missing id and
the route serializes it as-is with status 200. -/
def getUserProfile (db : List UserRec) (id : String) : Nat × Option ProfileView :=
  (200, (db.find? (fun u => u.id == id)).map profileOf)

/-! ## Fixture documents used by witnesses and counterexamples -/

/-- A concrete stand-in for `bcrypt.hash`. -/
def hashW : String → String := fun s => String.append "h:" s

/-- Fixture: an approved user holding the code `123456` expiring at `1000` ms. -/
def uCode : UserRec :=
  { id := "u1", name := "Ann", email := "a@x.com", password := "olddigest",
    phone := "111", status := "approved", avatar := none, validId := "v",
    selfie := "s", resetCode := some "123456", resetCodeExpires := some 1000,
    resetPasswordToken := none, resetPasswordExpires := none }

/-- Fixture: an approved user holding the reset token `tok1` expiring at `5000` ms. -/
def uTok : UserRec :=
  { id := "u2", name := "Bob", email := "b@x.com", password := "olddigest2",
    phone := "222", status := "approved", avatar := none, validId := "v2",
    selfie := "s2", resetCode := none, resetCodeExpires := none,
    resetPasswordToken := some "tok1", resetPasswordExpires := some 5000 }

/-- Claim C1: a CompleteReset (either scheme) is rejected with the
invalid-or-expired response, and the store is left unchanged, whenever no
user matches the identifier or the matched user's stored secret is not
exactly equal to the supplied one; in particular no password is updated
without an exact match. -/
theorem c1_complete_reset_exact_match
    (hash : String → String) (now : Nat) (db : List UserRec)
    (email pw tok : String) (code : Option String)
    (hc : ∀ u, db.find? (fun v => v.email == email) = some u → u.resetCode ≠ code)
    (ht : ∀ u ∈ db, u.resetPasswordToken ≠ some tok) :
    verifyReset hash now db email code pw = (invalidCodeResp, db) ∧
    resetPassword hash now db tok pw = (invalidTokenResp, db) := by
  constructor
  · unfold verifyReset
    cases hfind : db.find? (fun v => v.email == email) with
    | none => rfl
    | some u =>
      have hne := hc u hfind
      simp [bne_iff_ne, hne]
  · unfold resetPassword
    rw [List.find?_eq_none.mpr]
    intro u hu
    simp [beq_iff_eq, ht u hu]

/-- Witness for C1 at a concrete store, mismatching code and absent token. -/
theorem c1_witness :
    verifyReset hashW 500 [uCode, uTok] "a@x.com" (some "000000") "np"
      = (invalidCodeResp, [uCode, uTok]) ∧
    resetPassword hashW 500 [uCode, uTok] "missing" "np"
      = (invalidTokenResp, [uCode, uTok]) :=
  c1_complete_reset_exact_match hashW 500 [uCode, uTok] "a@x.com" "np" "missing"
    (some "000000")
    (by
      intro u hu
      rw [show ([uCode, uTok].find? (fun v => v.email == "a@x.com")) = some uCode
        from rfl] at hu
      injection hu with h
      subst h
      decide)
    (by intro u hu; fin_cases hu <;> decide)

/-- Claim C2 counterexample: in the code scheme the expiry check is the
strict `resetCodeExpires < Date.now()`, so a matching code whose expiry
equals the current time (not strictly in the future) is accepted and the
reset succeeds, where the claim demands the invalid-or-expired failure. -/
theorem c2_counterexample :
    (verifyReset hashW 1000 [uCode] "a@x.com" (some "123456") "newpw").1
      = resetOkResp ∧
    resetOkResp ≠ invalidCodeResp := by
  constructor
  · rfl
  · decide

/-- Claim C2 amended: in the code scheme a matching-but-expired code is
rejected only when the expiry is strictly in the past (`expiry < now`),
and that rejection is the very same `invalidCodeResp` (status 400, same
payload) the mismatch branch produces; in the token scheme any token
whose expiry is not strictly in the future is rejected with the single
`invalidTokenResp`, exactly as for a non-matching token. -/
theorem c2_amended
    (hash : String → String) (now : Nat) (db : List UserRec)
    (email pw tok : String) (code : Option String) (u : UserRec)
    (hfind : db.find? (fun v => v.email == email) = some u)
    (hexp : dateLt u.resetCodeExpires now = true)
    (htok : ∀ v ∈ db, v.resetPasswordToken = some tok →
      dateGt v.resetPasswordExpires now = false) :
    verifyReset hash now db email code pw = (invalidCodeResp, db) ∧
    resetPassword hash now db tok pw = (invalidTokenResp, db) := by
  constructor
  · unfold verifyReset
    rw [hfind]
    simp [hexp]
  · unfold resetPassword
    rw [List.find?_eq_none.mpr]
    intro v hv
    by_cases hvt : v.resetPasswordToken = some tok
    · simp [htok v hv hvt]
    · simp [beq_iff_eq, hvt]

/-- Fixture: a user whose stored code `123456` expired at time `900`. -/
def uExpired : UserRec :=
  { id := "u3", name := "Cal", email := "c@x.com", password := "d3",
    phone := "333", status := "approved", avatar := none, validId := "v3",
    selfie := "s3", resetCode := some "123456", resetCodeExpires := some 900,
    resetPasswordToken := some "tokOld", resetPasswordExpires := some 900 }

/-- Witness for the amended C2 at time 1000 against an expired record. -/
theorem c2_amended_witness :
    verifyReset hashW 1000 [uExpired] "c@x.com" (some "123456") "np"
      = (invalidCodeResp, [uExpired]) ∧
    resetPassword hashW 1000 [uExpired] "tokOld" "np"
      = (invalidTokenResp, [uExpired]) :=
  c2_amended hashW 1000 [uExpired] "c@x.com" "np" "tokOld" (some "123456")
    uExpired rfl rfl
    (by intro v hv; fin_cases hv; intro _; decide)

/-- Claim C3 counterexample: the token-scheme `POST /forgot-password`
performs no rate-limit check at all.  For a user already holding the
unexpired token `tok1` (expiry 5000, now 0) the call answers 200 — not
429 — and overwrites the stored secret with the fresh draw. -/
theorem c3_counterexample :
    (forgotPassword 0 "newtok" true [uTok] "b@x.com").1.status = 200 ∧
    (forgotPassword 0 "newtok" true [uTok] "b@x.com").1.status ≠ 429 ∧
    (forgotPassword 0 "newtok" true [uTok] "b@x.com").2 ≠ [uTok] := by
  refine ⟨rfl, by decide, by decide⟩

/-- Claim C3 amended: only the code-scheme `POST /request-reset` is
rate-limited: when the found user's stored expiry is still strictly in
the future the call answers 429 and the store is returned unchanged (no
new secret is generated or written).  The token scheme reissues
unconditionally, as the counterexample shows. -/
theorem c3_amended (now : Nat) (r : ℚ) (emailOk : Bool) (db : List UserRec)
    (email : String) (u : UserRec)
    (hfind : db.find? (fun v => v.email == email) = some u)
    (hunexp : dateGt u.resetCodeExpires now = true) :
    requestReset now r emailOk db email = (rateLimitedResp, db) := by
  unfold requestReset
  rw [hfind]
  simp [hunexp]

/-- Witness for the amended C3: the code `123456` held by `uCode` expires
at 1000, so at time 500 a second request is rejected with 429. -/
theorem c3_amended_witness :
    requestReset 500 (1/2 : ℚ) true [uCode] "a@x.com"
      = (rateLimitedResp, [uCode]) :=
  c3_amended 500 (1/2 : ℚ) true [uCode] "a@x.com" uCode rfl rfl

/-- Claim C4: a successful CompleteReset, in either scheme, produces
exactly one `save` whose document carries the hash of the new password
and has both the secret and the expiry cleared, and the route answers
success.  The conclusion exhibits the full result: the response and the
single `saveUser` write of the combined record update. -/
theorem c4_reset_success
    (hash : String → String) (now : Nat) (db : List UserRec)
    (email pw tok : String) (code : Option String) (u w : UserRec)
    (hfind : db.find? (fun v => v.email == email) = some u)
    (hmatch : u.resetCode = code)
    (hexp : dateLt u.resetCodeExpires now = false)
    (hwfind : db.find? (fun v =>
      v.resetPasswordToken == some tok && dateGt v.resetPasswordExpires now)
        = some w) :
    verifyReset hash now db email code pw =
      (resetOkResp,
       saveUser db { u with password := hash pw, resetCode := none,
                            resetCodeExpires := none }) ∧
    resetPassword hash now db tok pw =
      ({ status := 200, success := none,
         message := "Password has been reset successfully" },
       saveUser db { w with password := hash pw, resetPasswordToken := none,
                            resetPasswordExpires := none }) := by
  constructor
  · unfold verifyReset
    rw [hfind]
    simp [hmatch, hexp]
  · unfold resetPassword
    rw [hwfind]

/-- Witness for C4: at time 500 both the code held by `uCode` and the
token held by `uTok` are valid, and each reset rewrites its document. -/
theorem c4_reset_success_witness :
    verifyReset hashW 500 [uCode, uTok] "a@x.com" (some "123456") "npw" =
      (resetOkResp,
       saveUser [uCode, uTok]
         { uCode with password := hashW "npw", resetCode := none,
                      resetCodeExpires := none }) ∧
    resetPassword hashW 500 [uCode, uTok] "tok1" "npw" =
      ({ status := 200, success := none,
         message := "Password has been reset successfully" },
       saveUser [uCode, uTok]
         { uTok with password := hashW "npw", resetPasswordToken := none,
                     resetPasswordExpires := none }) :=
  c4_reset_success hashW 500 [uCode, uTok] "a@x.com" "npw" "tok1"
    (some "123456") uCode uTok rfl rfl rfl rfl

/-- After saving a document `u2` that keeps the id and email of the
document `u` found by an email lookup, the same lookup finds `u2`. -/
theorem find?_saveUser_self (db : List UserRec) (u u2 : UserRec) (email : String)
    (hf : db.find? (fun v => v.email == email) = some u)
    (hid : u2.id = u.id) (hemail : u2.email = u.email) :
    (saveUser db u2).find? (fun v => v.email == email) = some u2 := by
  induction db with
  | nil => simp at hf
  | cons x xs ih =>
    by_cases hx : (x.email == email) = true
    · rw [List.find?_cons_of_pos (p := fun (v : UserRec) => v.email == email) _ hx] at hf
      injection hf with hf
      subst hf
      have hhead : (x.id == u2.id) = true := by
        simp [beq_iff_eq, hid]
      have h2 : (u2.email == email) = true := by
        rw [hemail]; exact hx
      simp only [saveUser, List.map_cons]
      rw [if_pos hhead,
        List.find?_cons_of_pos (p := fun (v : UserRec) => v.email == email) _ h2]
    · rw [List.find?_cons_of_neg (p := fun (v : UserRec) => v.email == email) _ hx] at hf
      have hmatched := List.find?_some hf
      simp only [saveUser, List.map_cons]
      by_cases hxid : (x.id == u2.id) = true
      · have h2 : (u2.email == email) = true := by
          rw [hemail]; exact hmatched
        rw [if_pos hxid,
          List.find?_cons_of_pos (p := fun (v : UserRec) => v.email == email) _ h2]
      · rw [if_neg (by simpa using hxid),
          List.find?_cons_of_neg (p := fun (v : UserRec) => v.email == email) _ hx]
        exact ih hf

/-- Claim C5: a recovery secret is single-use in both schemes.  After a
successful code-scheme reset the stored code is cleared, so replaying
the same code against the updated store is rejected and leaves the
store unchanged; after a successful token-scheme reset (where `w` is the
only holder of the token) replaying the same token is likewise
rejected and leaves the store unchanged. -/
theorem c5_secret_single_use
    (hash : String → String) (now now2 : Nat) (db : List UserRec)
    (email pw pw2 s tok : String) (u w : UserRec)
    (hfind : db.find? (fun v => v.email == email) = some u)
    (hmatch : u.resetCode = some s)
    (hexp : dateLt u.resetCodeExpires now = false)
    (hwfind : db.find? (fun v =>
      v.resetPasswordToken == some tok && dateGt v.resetPasswordExpires now)
        = some w)
    (honly : ∀ v ∈ db, v.resetPasswordToken = some tok → v = w) :
    (verifyReset hash now2 ((verifyReset hash now db email (some s) pw).2)
        email (some s) pw2
      = (invalidCodeResp, (verifyReset hash now db email (some s) pw).2)) ∧
    (resetPassword hash now2 ((resetPassword hash now db tok pw).2) tok pw2
      = (invalidTokenResp, (resetPassword hash now db tok pw).2)) := by
  constructor
  · have hstep : (verifyReset hash now db email (some s) pw).2 =
        saveUser db { u with password := hash pw, resetCode := none,
                             resetCodeExpires := none } := by
      unfold verifyReset
      rw [hfind]
      simp [hmatch, hexp]
    rw [hstep]
    have hf2 := find?_saveUser_self db u
      { u with password := hash pw, resetCode := none, resetCodeExpires := none }
      email hfind rfl rfl
    unfold verifyReset
    rw [hf2]
    simp
  · have hstep : (resetPassword hash now db tok pw).2 =
        saveUser db { w with password := hash pw, resetPasswordToken := none,
                             resetPasswordExpires := none } := by
      unfold resetPassword
      rw [hwfind]
    rw [hstep]
    unfold resetPassword
    rw [List.find?_eq_none.mpr]
    intro v hv
    simp only [saveUser, List.mem_map] at hv
    obtain ⟨v0, hv0, hveq⟩ := hv
    by_cases hvid : (v0.id ==
        ({ w with password := hash pw, resetPasswordToken := none,
                  resetPasswordExpires := none } : UserRec).id) = true
    · rw [if_pos hvid] at hveq
      subst hveq
      simp
    · rw [if_neg (by simpa using hvid)] at hveq
      subst hveq
      by_cases hvt : v0.resetPasswordToken = some tok
      · have := honly v0 hv0 hvt
        subst this
        simp [beq_iff_eq] at hvid
      · simp [beq_iff_eq, hvt]

/-- Witness for C5 at time 500 with the code and token fixtures. -/
theorem c5_secret_single_use_witness :
    (verifyReset hashW 600 ((verifyReset hashW 500 [uCode, uTok] "a@x.com"
        (some "123456") "npw").2) "a@x.com" (some "123456") "npw2"
      = (invalidCodeResp,
         (verifyReset hashW 500 [uCode, uTok] "a@x.com" (some "123456") "npw").2)) ∧
    (resetPassword hashW 600 ((resetPassword hashW 500 [uCode, uTok] "tok1"
        "npw").2) "tok1" "npw2"
      = (invalidTokenResp,
         (resetPassword hashW 500 [uCode, uTok] "tok1" "npw").2)) :=
  c5_secret_single_use hashW 500 600 [uCode, uTok] "a@x.com" "npw" "npw2"
    "123456" "tok1" uCode uTok rfl rfl rfl rfl
    (by intro v hv hvt; fin_cases hv
        · exact absurd hvt (by decide)
        · rfl)

/-- Fixture: a pending user whose stored digest is `"digest"`. -/
def uPending : UserRec :=
  { id := "u4", name := "Dee", email := "p@x.com", password := "digest",
    phone := "444", status := "pending", avatar := none, validId := "v4",
    selfie := "s4", resetCode := none, resetCodeExpires := none,
    resetPasswordToken := none, resetPasswordExpires := none }

/-- Claim C6 counterexample: the credential check runs before the
pending-status gate, so a pending user supplying a wrong password gets
the 400 invalid-credentials error, not the 403 pending-approval error
the claim requires regardless of credential correctness. -/
theorem c6_counterexample :
    login (fun _ _ => false) (fun s => s) (fun s => s) [uPending]
        "p@x.com" "wrongpw"
      = .err 400 "Invalid email or password" ∧
    (LoginResult.err 400 "Invalid email or password").statusCode ≠ 403 := by
  refine ⟨rfl, by decide⟩

/-- Claim C6 amended: a pending user never obtains a session token or a
chat credential; when the supplied password verifies against the stored
digest the failure is the 403 pending-approval error, and when it does
not the failure is the 400 invalid-credentials error. -/
theorem c6_amended (verify : String → String → Bool)
    (sign chatTok : String → String) (db : List UserRec)
    (email pw : String) (u : UserRec)
    (hfind : db.find? (fun v => v.email == email) = some u)
    (hpend : u.status = "pending") :
    (login verify sign chatTok db email pw).isOk = false ∧
    (verify pw u.password = true →
      login verify sign chatTok db email pw
        = .err 403 "Your account is pending approval") ∧
    (verify pw u.password = false →
      login verify sign chatTok db email pw
        = .err 400 "Invalid email or password") := by
  unfold login
  rw [hfind]
  cases hv : verify pw u.password with
  | false => simp [hv, LoginResult.isOk]
  | true => simp [hv, hpend, LoginResult.isOk]

/-- Witness for the amended C6 with an always-accepting verifier. -/
theorem c6_amended_witness :
    (login (fun _ _ => true) (fun s => s) (fun s => s) [uPending] "p@x.com"
      "anypw").isOk = false ∧
    ((fun _ _ => true : String → String → Bool) "anypw" uPending.password = true →
      login (fun _ _ => true) (fun s => s) (fun s => s) [uPending] "p@x.com"
        "anypw" = .err 403 "Your account is pending approval") ∧
    ((fun _ _ => true : String → String → Bool) "anypw" uPending.password = false →
      login (fun _ _ => true) (fun s => s) (fun s => s) [uPending] "p@x.com"
        "anypw" = .err 400 "Invalid email or password") :=
  c6_amended (fun _ _ => true) (fun s => s) (fun s => s) [uPending]
    "p@x.com" "anypw" uPending rfl rfl

/-- Claim C7: for a fully populated signup payload, an already-used email
(whatever the phone) or an already-used phone yields the conflict
response and writes nothing, while a fresh email and phone append
exactly one new user whose state is `pending` and whose credential is
the hash of the supplied password. -/
theorem c7_signup_uniqueness
    (hash : String → String) (freshId : String) (db : List UserRec)
    (r : SignupReq)
    (hname : r.name ≠ "") (hemail : r.email ≠ "") (hpw : r.password ≠ "")
    (hphone : r.phone ≠ "") (hvid : r.validId ≠ "") (hselfie : r.selfie ≠ "") :
    ((∃ u ∈ db, u.email = r.email) →
      signup hash freshId db r = (conflictResp, db)) ∧
    ((∃ u ∈ db, u.phone = r.phone) →
      signup hash freshId db r = (conflictResp, db)) ∧
    ((∀ u ∈ db, u.email ≠ r.email ∧ u.phone ≠ r.phone) →
      signup hash freshId db r
        = ({ status := 201, success := none, message := "Signup successful" },
           db ++ [mkUser hash freshId r]) ∧
      (mkUser hash freshId r).status = "pending" ∧
      (mkUser hash freshId r).password = hash r.password) := by
  have hguard : (r.name == "" || r.email == "" || r.password == "" ||
      r.phone == "" || r.validId == "" || r.selfie == "") = false := by
    simp [beq_iff_eq, hname, hemail, hpw, hphone, hvid, hselfie]
  refine ⟨?_, ?_, ?_⟩
  · rintro ⟨u, hu, he⟩
    have hsome : (db.find? (fun v => v.email == r.email)).isSome := by
      rw [List.find?_isSome]
      exact ⟨u, hu, by simp [beq_iff_eq, he]⟩
    obtain ⟨w, hw⟩ := Option.isSome_iff_exists.mp hsome
    unfold signup
    simp [hguard, hw]
  · rintro ⟨u, hu, hp⟩
    unfold signup
    cases hw : db.find? (fun v => v.email == r.email) with
    | some w => simp [hguard, hw]
    | none =>
      have hsome : (db.find? (fun v => v.phone == r.phone)).isSome := by
        rw [List.find?_isSome]
        exact ⟨u, hu, by simp [beq_iff_eq, hp]⟩
      obtain ⟨w2, hw2⟩ := Option.isSome_iff_exists.mp hsome
      simp [hguard, hw, hw2]
  · intro h
    have hwe : db.find? (fun v => v.email == r.email) = none := by
      rw [List.find?_eq_none]
      intro u hu
      simp [beq_iff_eq, (h u hu).1]
    have hwp : db.find? (fun v => v.phone == r.phone) = none := by
      rw [List.find?_eq_none]
      intro u hu
      simp [beq_iff_eq, (h u hu).2]
    unfold signup
    simp [hguard, hwe, hwp, mkUser]

/-- Witness for C7: a store holding `uCode` (email `a@x.com`, phone
`111`) rejects a signup reusing that email and one reusing that phone,
and accepts a fresh one. -/
theorem c7_signup_uniqueness_witness :
    ((∃ u ∈ [uCode], u.email = "a@x.com") →
      signup hashW "u9" [uCode]
        { name := "N", email := "a@x.com", password := "pw", phone := "999",
          validId := "vi", selfie := "se" } = (conflictResp, [uCode])) ∧
    ((∃ u ∈ [uCode], u.phone = "999") →
      signup hashW "u9" [uCode]
        { name := "N", email := "a@x.com", password := "pw", phone := "999",
          validId := "vi", selfie := "se" } = (conflictResp, [uCode])) ∧
    ((∀ u ∈ [uCode], u.email ≠ "a@x.com" ∧ u.phone ≠ "999") →
      signup hashW "u9" [uCode]
        { name := "N", email := "a@x.com", password := "pw", phone := "999",
          validId := "vi", selfie := "se" }
        = ({ status := 201, success := none, message := "Signup successful" },
           [uCode] ++ [mkUser hashW "u9"
             { name := "N", email := "a@x.com", password := "pw", phone := "999",
               validId := "vi", selfie := "se" }]) ∧
      (mkUser hashW "u9"
        { name := "N", email := "a@x.com", password := "pw", phone := "999",
          validId := "vi", selfie := "se" }).status = "pending" ∧
      (mkUser hashW "u9"
        { name := "N", email := "a@x.com", password := "pw", phone := "999",
          validId := "vi", selfie := "se" }).password = hashW "pw") :=
  c7_signup_uniqueness hashW "u9" [uCode]
    { name := "N", email := "a@x.com", password := "pw", phone := "999",
      validId := "vi", selfie := "se" }
    (by decide) (by decide) (by decide) (by decide) (by decide) (by decide)

/-- Writing the same avatar value twice produces the same store as
writing it once. -/
theorem avatarWrite_idem (db : List UserRec) (id av : String) :
    (db.map (fun u => if u.id == id then { u with avatar := some av } else u)).map
        (fun u => if u.id == id then { u with avatar := some av } else u)
      = db.map (fun u => if u.id == id then { u with avatar := some av } else u) := by
  induction db with
  | nil => rfl
  | cons x xs ih =>
    simp only [List.map_cons]
    rw [ih]
    congr 1
    by_cases hx : (x.id == id) = true
    · simp [hx]
    · simp [hx]

/-- The avatar write leaves the store unchanged when no document has the
requested id. -/
theorem avatarWrite_noop (db : List UserRec) (id av : String)
    (h : ∀ u ∈ db, u.id ≠ id) :
    db.map (fun u => if u.id == id then { u with avatar := some av } else u)
      = db := by
  revert h
  induction db with
  | nil => intro _; rfl
  | cons x xs ih =>
    intro h
    simp only [List.map_cons]
    rw [if_neg (by simp [beq_iff_eq]; exact h x (List.mem_cons_self x xs)),
        ih (fun u hu => h u (List.mem_cons_of_mem x hu))]

/-- Claim C8 counterexample: `findByIdAndUpdate` on an id that matches no
document is a silent no-op and the route still answers 200 "Avatar
updated", where the claim requires a NotFoundError. -/
theorem c8_counterexample :
    (updateAvatar [uCode] "nope" "pic").1.status = 200 ∧
    (updateAvatar [uCode] "nope" "pic").1.status ≠ 404 ∧
    (updateAvatar [uCode] "nope" "pic").2 = [uCode] := by
  refine ⟨rfl, by decide, by decide⟩

/-- Claim C8 amended: UpdateAvatar always answers 200; it overwrites the
avatar idempotently (a second identical write changes nothing), and when
the id matches no user the store is returned unchanged rather than a
NotFoundError being raised. -/
theorem c8_amended (db : List UserRec) (id av : String) :
    (updateAvatar db id av).1.status = 200 ∧
    (updateAvatar (updateAvatar db id av).2 id av).2 = (updateAvatar db id av).2 ∧
    ((∀ u ∈ db, u.id ≠ id) → (updateAvatar db id av).2 = db) := by
  exact ⟨rfl, avatarWrite_idem db id av, fun h => avatarWrite_noop db id av h⟩

/-- Witness for the amended C8: overwriting the avatar of `uCode` twice
equals doing it once, and an absent id leaves the store alone. -/
theorem c8_amended_witness :
    (updateAvatar [uCode] "u1" "newpic").1.status = 200 ∧
    (updateAvatar (updateAvatar [uCode] "u1" "newpic").2 "u1" "newpic").2
      = (updateAvatar [uCode] "u1" "newpic").2 ∧
    ((∀ u ∈ [uCode], u.id ≠ "u1") → (updateAvatar [uCode] "u1" "newpic").2
      = [uCode]) :=
  c8_amended [uCode] "u1" "newpic"

/-- Claim C9: for every draw of the random source in `[0,1)` the
code-scheme secret `Math.floor(100000 + r * 900000)` lies in
`[100000, 999999]` and has exactly 6 decimal digits, and the request
persists it with expiry exactly `10 * 60 * 1000` ms after `now`. -/
theorem c9_code_format (now : Nat) (r : ℚ) (emailOk : Bool)
    (db : List UserRec) (email : String) (u : UserRec)
    (h0 : 0 ≤ r) (h1 : r < 1)
    (hfind : db.find? (fun v => v.email == email) = some u)
    (hfree : dateGt u.resetCodeExpires now = false) :
    100000 ≤ genCode r ∧ genCode r ≤ 999999 ∧
    (Nat.digits 10 (genCode r)).length = 6 ∧
    (requestReset now r emailOk db email).2 =
      saveUser db { u with resetCode := some (toString (genCode r)),
                           resetCodeExpires := some (now + 10 * 60 * 1000) } := by
  have hlow : (100000 : ℤ) ≤ ⌊(100000 : ℚ) + r * 900000⌋ := by
    rw [Int.le_floor]
    push_cast
    nlinarith
  have hhigh : ⌊(100000 : ℚ) + r * 900000⌋ < (1000000 : ℤ) := by
    rw [Int.floor_lt]
    push_cast
    nlinarith
  have hge : 100000 ≤ genCode r := by unfold genCode; omega
  have hlt : genCode r < 1000000 := by unfold genCode; omega
  refine ⟨hge, by omega, ?_, ?_⟩
  · rw [Nat.digits_len 10 _ (by norm_num) (by omega)]
    have hlog : Nat.log 10 (genCode r) = 5 :=
      Nat.log_eq_of_pow_le_of_lt_pow (by norm_num; omega) (by norm_num; omega)
    omega
  · unfold requestReset
    rw [hfind]
    cases emailOk with
    | true => simp [hfree]
    | false => simp [hfree]

/-- Witness for C9 at the draw `1/2` against a user with no live code. -/
theorem c9_code_format_witness :
    100000 ≤ genCode (1/2 : ℚ) ∧ genCode (1/2 : ℚ) ≤ 999999 ∧
    (Nat.digits 10 (genCode (1/2 : ℚ))).length = 6 ∧
    (requestReset 500 (1/2 : ℚ) true [uTok] "b@x.com").2 =
      saveUser [uTok]
        { uTok with resetCode := some (toString (genCode (1/2 : ℚ))),
                    resetCodeExpires := some (500 + 10 * 60 * 1000) } :=
  c9_code_format 500 (1/2 : ℚ) true [uTok] "b@x.com" uTok
    (by norm_num) (by norm_num) rfl rfl

/-- Claim C10: the profile read for an id matching no stored user
answers status 200 with a `null` body, not a NotFoundError. -/
theorem c10_missing_user_200_null (db : List UserRec) (id : String)
    (h : ∀ u ∈ db, u.id ≠ id) :
    getUserProfile db id = (200, none) := by
  have hn : db.find? (fun v => v.id == id) = none := by
    rw [List.find?_eq_none]
    intro u hu
    simp [beq_iff_eq]
    exact h u hu
  unfold getUserProfile
  rw [hn]
  rfl

/-- Witness for C10: the store holding only `uCode` answers `(200, none)`
for the unknown id `zzz`. -/
theorem c10_missing_user_200_null_witness :
    getUserProfile [uCode] "zzz" = (200, none) :=
  c10_missing_user_200_null [uCode] "zzz"
    (by intro u hu; fin_cases hu; decide)
